import Mathlib

/-!
Verification development for the HTrace C client (htrace-c).

The embedding covers:
* `struct htrace_span_id` and its operations (htrace.h, htrace.hpp);
* the hexadecimal parse/format pair for span identifiers;
* the scope / span-nesting protocol;
* the htraced receiver ring-buffer submit path;
* sampler creation and the C++ `Sampler` constructor;
* the time conversions of util/time.c.

Functions whose bodies are present under src/ (htrace.hpp inline members,
util/time.c) are embedded from the source.  Functions that src/ only declares
(htrace.h prototypes whose .c bodies are not in the tree) are modelled from the
spec; each such definition carries a doc comment starting `Modelled from the
spec:`.
-/

namespace HTraceC

/-- Unsigned 64-bit machine words are modelled as naturals; where the C code
wraps, we take the remainder modulo `U64` explicitly. -/
def U64 : Nat := 2 ^ 64

/-- The C `struct htrace_span_id` (htrace.h:186-189): two `uint64_t` fields. -/
structure htrace_span_id where
  high : Nat
  low : Nat
deriving DecidableEq, Repr

/-- The all-zero invalid/absent sentinel (htrace_span_id_clear sets both
fields to zero). -/
def INVALID_SPAN_ID : htrace_span_id := { high := 0, low := 0 }

/-- Embedding of `htrace_span_id_clear` (htrace.h:384): sets both fields to
zero, producing the invalid sentinel. -/
def htrace_span_id_clear : htrace_span_id := { high := 0, low := 0 }

/-- Modelled from the spec: the body of `htrace_span_id_compare` (declared at
htrace.h:396, implementation not under src/).  Spec section 3 fixes the order
as lexicographic on (`high`, `low`) and section 4.1 fixes the result set as
{-1, 0, 1}. -/
def htrace_span_id_compare (a b : htrace_span_id) : Int :=
  if a.high < b.high then -1
  else if b.high < a.high then 1
  else if a.low < b.low then -1
  else if b.low < a.low then 1
  else 0

/-- Embedding of the C++ `SpanId::operator<` (htrace.hpp:100-102): true iff
`htrace_span_id_compare` of the two wrapped ids is negative. -/
def SpanId.ltOp (a b : htrace_span_id) : Bool :=
  htrace_span_id_compare a b < 0

/-- Embedding of the C++ `SpanId::operator==` (htrace.hpp:104-107): field-wise
comparison of `high` and `low`. -/
def SpanId.eqOp (a b : htrace_span_id) : Bool :=
  a.high == b.high && a.low == b.low

/-- Embedding of the C++ default constructor `SpanId::SpanId()`
(htrace.hpp:54-57): sets `low` and `high` to zero. -/
def SpanId.defaultCtor : htrace_span_id := { high := 0, low := 0 }

/- Hexadecimal characters.  ASCII codes: digits are 48-57, lowercase a-f are
97-102, uppercase A-F are 65-70. -/

/-- Numeric value of a hexadecimal character, `none` for a non-hex character. -/
def hexCharVal (c : Char) : Option Nat :=
  let n := c.toNat
  if 48 ≤ n ∧ n ≤ 57 then some (n - 48)
  else if 97 ≤ n ∧ n ≤ 102 then some (n - 87)
  else if 65 ≤ n ∧ n ≤ 70 then some (n - 55)
  else none

/-- Whether a character is a lowercase hexadecimal digit (0-9, a-f): the
alphabet of the canonical span-identifier string form. -/
def isLowerHex (c : Char) : Bool :=
  let n := c.toNat
  (48 ≤ n && n ≤ 57) || (97 ≤ n && n ≤ 102)

/-- Lowercase hexadecimal digit character for a value below 16, as produced by
printf `%x` formatting. -/
def hexDigitChar (v : Nat) : Char :=
  if v < 10 then Char.ofNat (48 + v) else Char.ofNat (87 + v)

/-- Accumulating left-to-right hexadecimal valuation of a digit string
(most significant digit first), as a hex scanner computes it. -/
def hexValFold (ds : List Char) : Nat :=
  ds.foldl (fun acc c => acc * 16 + (hexCharVal c).getD 0) 0

/-- Zero-padded fixed-width lowercase hexadecimal rendering: `toHexN k n` is
the last `k` hex digits of `n`, most significant first, exactly as printf
`%0kx` renders a value below `16 ^ k`. -/
def toHexN : Nat → Nat → List Char
  | 0, _ => []
  | k + 1, n => toHexN k (n / 16) ++ [hexDigitChar (n % 16)]

/-- Modelled from the spec: the body of `htrace_span_id_parse` (declared at
htrace.h:410, implementation not under src/).  Spec section 4.1: accepts
exactly 32 hex characters, rejects any other length or non-hex character,
leaving the output untouched and producing a descriptive error on failure.
The first 16 digits give `high`, the last 16 give `low`.  The result pairs
the (possibly unchanged) identifier with the error-buffer contents; an empty
error string means success, as in `SpanId::FromString`. -/
def htrace_span_id_parse (id : htrace_span_id) (str : List Char) :
    htrace_span_id × String :=
  if str.length ≠ 32 then
    (id, "the string to parse does not have the span ID string length of 32")
  else if str.any (fun c => (hexCharVal c).isNone) then
    (id, "the string to parse contains a non-hexadecimal character")
  else
    ({ high := hexValFold (str.take 16), low := hexValFold (str.drop 16) }, "")

/-- Modelled from the spec: the body of `htrace_span_id_to_str` (declared at
htrace.h:423, implementation not under src/).  Spec sections 3 and 4.1: always
produces exactly 32 lowercase hex characters, `high` then `low`, each
zero-padded to 16 digits; fails (returns 0, here `none`) only when the
caller-supplied buffer of `len` bytes cannot hold the 32 characters plus the
terminating NUL. -/
def htrace_span_id_to_str (id : htrace_span_id) (len : Nat) :
    Option (List Char) :=
  if 33 ≤ len then some (toHexN 16 id.high ++ toHexN 16 id.low) else none

/-- Embedding of the C++ `SpanId::FromString` (htrace.hpp:84-92): clears the
error buffer, calls `htrace_span_id_parse` on the wrapped id, and returns the
error string, which is empty exactly when parsing succeeded; the wrapped id
becomes the parse output. -/
def SpanId.FromString (id : htrace_span_id) (input : List Char) :
    htrace_span_id × String :=
  let r := htrace_span_id_parse id input
  (r.1, r.2)

/- Scope / span-nesting protocol (spec section 4.3).  The implementations of
htrace_start_span, htrace_start_span_from_parent, htrace_scope_close and
htrace_scope_get_span_id are declared in htrace.h but their bodies are not
under src/, so they are modelled from the spec.  Thread-local state is made
explicit: each operation takes and returns the calling thread state. -/

/-- A trace span as the scope protocol sees it: identity, parent identity
set, and description (spec section 3). -/
structure htrace_span where
  span_id : htrace_span_id
  parents : List htrace_span_id
  desc : String
deriving DecidableEq, Repr

/-- A trace scope: the optionally owned span, plus the span that was current
on this thread before the scope began (restored on close; spec section 3). -/
structure htrace_scope where
  span : Option htrace_span
  prev : Option htrace_span
deriving DecidableEq, Repr

/-- The per-thread tracing state: the currently active span, if any. -/
structure ThreadState where
  cur : Option htrace_span
deriving DecidableEq, Repr

/-- Sampler kinds (htrace.h HTRACE_SAMPLER_KEY): never, always, and the
probability sampler; the probabilistic draw outcome is made explicit. -/
inductive SamplerKind where
  | never
  | always
  | prob (fires : Bool)
deriving DecidableEq, Repr

/-- The answer a sampler gives when asked whether a new span should begin
(spec section 4.2). -/
def sampler_decision : SamplerKind → Bool
  | .never => false
  | .always => true
  | .prob fires => fires

/-- Modelled from the spec: the body of `htrace_start_span` (declared at
htrace.h:320, implementation not under src/).  Spec section 4.3: if there is a
currently-active span on this thread, start a new span whose parent is the
current span identity regardless of any sampler answer; otherwise consult the
sampler if one was supplied (no span on a negative or absent answer).  The
fresh identity the generator would assign is passed in as `newId`.  Returns
the created scope and the updated thread state. -/
def htrace_start_span (ts : ThreadState) (sampler : Option SamplerKind)
    (newId : htrace_span_id) (desc : String) : htrace_scope × ThreadState :=
  match ts.cur with
  | some cur =>
      let sp : htrace_span := { span_id := newId, parents := [cur.span_id], desc := desc }
      ({ span := some sp, prev := ts.cur }, { cur := some sp })
  | none =>
      match sampler with
      | some k =>
          if sampler_decision k then
            let sp : htrace_span := { span_id := newId, parents := [], desc := desc }
            ({ span := some sp, prev := ts.cur }, { cur := some sp })
          else ({ span := none, prev := ts.cur }, ts)
      | none => ({ span := none, prev := ts.cur }, ts)

/-- Modelled from the spec: the body of `htrace_start_span_from_parent`
(declared at htrace.h:339, implementation not under src/).  Spec section 4.3:
if the parent identity is absent (NULL) or equals the invalid sentinel,
produce an empty scope; otherwise unconditionally start a new span whose
parent is exactly that identity, with no sampler consulted. -/
def htrace_start_span_from_parent (ts : ThreadState)
    (parent : Option htrace_span_id) (newId : htrace_span_id)
    (desc : String) : htrace_scope × ThreadState :=
  match parent with
  | none => ({ span := none, prev := ts.cur }, ts)
  | some p =>
      if p = INVALID_SPAN_ID then ({ span := none, prev := ts.cur }, ts)
      else
        let sp : htrace_span := { span_id := newId, parents := [p], desc := desc }
        ({ span := some sp, prev := ts.cur }, { cur := some sp })

/-- Modelled from the spec: the body of `htrace_scope_close` (declared at
htrace.h:377, implementation not under src/).  Spec section 4.3: a NULL scope
is ignored; otherwise the owned span (if any) is handed to the receiver and
the thread state that was current before the scope began is restored.
Returns the new thread state and the span emitted to the receiver. -/
def htrace_scope_close (scope : Option htrace_scope) (ts : ThreadState) :
    ThreadState × Option htrace_span :=
  match scope with
  | none => (ts, none)
  | some sc => ({ cur := sc.prev }, sc.span)

/-- Modelled from the spec: the body of `htrace_scope_get_span_id` (declared
at htrace.h:445; the header contract states the output is set to the invalid
span ID if the scope is NULL or has no span, and to the owned span identity
otherwise). -/
def htrace_scope_get_span_id (scope : Option htrace_scope) : htrace_span_id :=
  match scope with
  | none => INVALID_SPAN_ID
  | some sc =>
      match sc.span with
      | none => INVALID_SPAN_ID
      | some sp => sp.span_id

/-- Embedding of the C++ `Scope::GetSpanId` (htrace.hpp:338-342): calls
`htrace_scope_get_span_id` on the wrapped scope pointer and wraps the result
in a `SpanId` (the converting constructor copies both fields). -/
def Scope.GetSpanId (scope : Option htrace_scope) : htrace_span_id :=
  htrace_scope_get_span_id scope

/- The htraced receiver ring buffer (spec section 4.4).  The receiver
implementation is not under src/, so the submit path is modelled from the
spec. -/

/-- The observable ring-buffer state of a receiver in the Running state: the
retained spans in FIFO submission order (occupancy is the list length, bounded
by the capacity) and the dropped-span counter. -/
structure ReceiverState where
  buf : List htrace_span
  dropped : Nat
deriving DecidableEq, Repr

/-- Modelled from the spec: the receiver submit path in the Running state
(spec section 4.4).  If the ring buffer has room the span is copied in and
occupancy incremented; if the buffer is full the incoming span is dropped and
the dropped-span counter incremented.  The call returns the new state only:
there is no error channel back to the caller, and the worker is not involved
(the worker being paused means no dequeue happens between submits). -/
def receiver_submit (cap : Nat) (st : ReceiverState) (sp : htrace_span) :
    ReceiverState :=
  if st.buf.length < cap then { buf := st.buf ++ [sp], dropped := st.dropped }
  else { buf := st.buf, dropped := st.dropped + 1 }

/-- Submitting a list of spans in order, with the background worker paused
throughout (no dequeues interleave). -/
def receiver_submit_all (cap : Nat) (st : ReceiverState)
    (sps : List htrace_span) : ReceiverState :=
  sps.foldl (receiver_submit cap) st

/- Sampler creation and the C++ Sampler constructor (claim C7). -/

/-- The cases the `htrace_sampler_create` contract distinguishes
(htrace.h:264-284): a valid configuration yields a sampler; the documented
NULL returns are out-of-memory, invalid configuration, and no sampler
configured. -/
inductive SamplerCreateInput where
  | validConf (k : SamplerKind)
  | invalidConf
  | noSamplerConf
  | outOfMemory
deriving DecidableEq, Repr

/-- Modelled from the spec: the body of `htrace_sampler_create` (declared at
htrace.h:283, implementation not under src/).  The header contract: returns
NULL if out of memory, NULL if the configuration was invalid, NULL if no
sampler is configured, and the sampler otherwise; error conditions are logged
to the htracer log, not escalated. -/
def htrace_sampler_create : SamplerCreateInput → Option SamplerKind
  | .validConf k => some k
  | .invalidConf => none
  | .noSamplerConf => none
  | .outOfMemory => none

/-- The only exception the C++ binding raises (htrace.hpp:32-40). -/
inductive CppException where
  | badAlloc
deriving DecidableEq, Repr

/-- Embedding of the C++ `Sampler::Sampler` constructor (htrace.hpp:277-282):
initializes the wrapped pointer from `htrace_sampler_create` and throws
`std::bad_alloc` whenever that pointer is NULL. -/
def Sampler.ctor (input : SamplerCreateInput) : Except CppException SamplerKind :=
  match htrace_sampler_create input with
  | none => .error .badAlloc
  | some k => .ok k

/- util/time.c: these function bodies are under src/, embedded directly.
`time_t`, `long` and `suseconds_t` are modelled as 64-bit signed integers
(the POSIX target of the code); `uint64_t` arithmetic wraps modulo 2^64. -/

/-- Conversion of an unsigned 64-bit value to a signed 64-bit field
(two's-complement reinterpretation), as the assignment of a `uint64_t` to a
`time_t` / `long` performs on the target. -/
def toInt64 (n : Nat) : Int :=
  if n % U64 < 2 ^ 63 then ((n % U64 : Nat) : Int)
  else ((n % U64 : Nat) : Int) - (U64 : Int)

/-- Conversion of a signed 64-bit field back to `uint64_t` (reduction modulo
2^64), as the assignment of a `time_t` / `long` to a `uint64_t` performs. -/
def toU64 (i : Int) : Nat := (i % (U64 : Int)).toNat

/-- The C `struct timespec`: seconds (`time_t`) and nanoseconds (`long`). -/
structure timespec where
  tv_sec : Int
  tv_nsec : Int
deriving DecidableEq, Repr

/-- The C `struct timeval`: seconds (`time_t`) and microseconds
(`suseconds_t`). -/
structure timeval where
  tv_sec : Int
  tv_usec : Int
deriving DecidableEq, Repr

/-- Embedding of `ms_to_timespec` (time.c:49-55): `sec = ms / 1000`,
`tv_sec = sec`, `ms -= sec * 1000`, `tv_nsec = ms * 1000000`.  The parameter
has C type `uint64_t`, hence the reduction of the input modulo 2^64. -/
def ms_to_timespec (ms : Nat) : timespec :=
  let ms0 := ms % U64
  let sec := ms0 / 1000
  let ms1 := ms0 - sec * 1000
  { tv_sec := toInt64 sec, tv_nsec := toInt64 (ms1 * 1000000) }

/-- Embedding of `ms_to_timeval` (time.c:57-63): `sec = ms / 1000`,
`tv_sec = sec`, `ms -= sec * 1000`, `tv_usec = ms * 1000`. -/
def ms_to_timeval (ms : Nat) : timeval :=
  let ms0 := ms % U64
  let sec := ms0 / 1000
  let ms1 := ms0 - sec * 1000
  { tv_sec := toInt64 sec, tv_usec := toInt64 (ms1 * 1000) }

/-- Embedding of `timespec_to_ms` (time.c:29-37): `seconds_ms = ts->tv_sec`
(converted to `uint64_t`), `seconds_ms *= 1000` (wrapping), `nanoseconds_ms =
ts->tv_nsec` (converted), `nanoseconds_ms /= 1000000`, and the wrapping sum
is returned. -/
def timespec_to_ms (ts : timespec) : Nat :=
  let seconds_ms := toU64 ts.tv_sec * 1000 % U64
  let nanoseconds_ms := toU64 ts.tv_nsec / 1000000
  (seconds_ms + nanoseconds_ms) % U64

/- sleep_ms (time.c:113-128): the do { ... } while (0) loop around nanosleep.
The outcome of the single system call the kernel may produce is made explicit;
the control flow of the loop body and of the constant-false loop condition is
embedded directly. -/

/-- Possible outcomes of one `nanosleep` call: success (return 0), failure
with `errno == EINTR`, or failure with any other errno. -/
inductive NanosleepOutcome where
  | success
  | eintr
  | otherError
deriving DecidableEq, Repr

/-- The mutable locals of `sleep_ms` together with an invocation counter for
the `nanosleep` call. -/
structure SleepState where
  req : timespec
  rem : timespec
  calls : Nat
deriving DecidableEq, Repr

/-- One execution of the do-while body of `sleep_ms` (time.c:119-127): call
`nanosleep(&req, &rem)` once; if it failed with `errno == EINTR`, assign
`rem.tv_sec = req.tv_sec; rem.tv_nsec = req.tv_nsec` and `continue` (which
transfers control to the loop-condition test); on success or any other
failure, fall through to the loop-condition test. -/
def sleep_body (o : NanosleepOutcome) (st : SleepState) : SleepState :=
  let st1 : SleepState := { st with calls := st.calls + 1 }
  match o with
  | .eintr => { st1 with rem := st1.req }
  | .success => st1
  | .otherError => st1

/-- The do-while loop of `sleep_ms`: execute the body once (do-while semantics),
then test the condition `0`; both the `continue` path and the fall-through
path reach this same test.  Further iterations would consume further outcomes
from `rest`, but only run when the condition holds. -/
def sleep_loop (o : NanosleepOutcome) (rest : List NanosleepOutcome)
    (st : SleepState) : SleepState :=
  let st1 := sleep_body o st
  if (0 : Nat) ≠ 0 then
    match rest with
    | [] => st1
    | o2 :: rest2 => sleep_loop o2 rest2 st1
  else st1

/-- Embedding of `sleep_ms` (time.c:113-128): converts `ms` to the `req`
timespec, zeroes `rem`, and runs the do-while loop.  `o` is the outcome of
the first `nanosleep` call; `rest` supplies outcomes for any further calls
the loop might make. -/
def sleep_ms (ms : Nat) (o : NanosleepOutcome)
    (rest : List NanosleepOutcome) : SleepState :=
  sleep_loop o rest
    { req := ms_to_timespec ms, rem := { tv_sec := 0, tv_nsec := 0 }, calls := 0 }

/- Helper lemmas about the span-id comparison. -/

theorem span_id_compare_eq_zero_iff (a b : htrace_span_id) :
    htrace_span_id_compare a b = 0 ↔ a = b := by
  obtain ⟨ah, al⟩ := a
  obtain ⟨bh, bl⟩ := b
  simp only [htrace_span_id_compare, htrace_span_id.mk.injEq]
  constructor
  · intro h
    split_ifs at h <;> omega
  · rintro ⟨rfl, rfl⟩
    simp

theorem span_id_compare_neg_iff (a b : htrace_span_id) :
    htrace_span_id_compare a b < 0 ↔
      (a.high < b.high ∨ (a.high = b.high ∧ a.low < b.low)) := by
  obtain ⟨ah, al⟩ := a
  obtain ⟨bh, bl⟩ := b
  simp only [htrace_span_id_compare]
  split_ifs <;> omega

theorem span_id_compare_pos_iff (a b : htrace_span_id) :
    0 < htrace_span_id_compare a b ↔
      (b.high < a.high ∨ (b.high = a.high ∧ b.low < a.low)) := by
  obtain ⟨ah, al⟩ := a
  obtain ⟨bh, bl⟩ := b
  simp only [htrace_span_id_compare]
  split_ifs <;> omega

/-- C4: `htrace_span_id_compare` is a strict total order: it orders pairs
lexicographically on (`high`, `low`), returns 0 exactly on field-wise
equality, is antisymmetric (compare(a,b) < 0 iff compare(b,a) > 0) and
transitive, and the C++ `SpanId::operator<` and `SpanId::operator==` agree
with it. -/
theorem C4_compare_strict_total_order (a b c : htrace_span_id) :
    (htrace_span_id_compare a b < 0 ↔
      (a.high < b.high ∨ (a.high = b.high ∧ a.low < b.low))) ∧
    (htrace_span_id_compare a b = 0 ↔ a = b) ∧
    (htrace_span_id_compare a b = 0 ↔ (a.high = b.high ∧ a.low = b.low)) ∧
    (htrace_span_id_compare a b < 0 ↔ 0 < htrace_span_id_compare b a) ∧
    (htrace_span_id_compare a b < 0 → htrace_span_id_compare b c < 0 →
      htrace_span_id_compare a c < 0) ∧
    (SpanId.ltOp a b = true ↔ htrace_span_id_compare a b < 0) ∧
    (SpanId.eqOp a b = true ↔ htrace_span_id_compare a b = 0) := by
  refine ⟨span_id_compare_neg_iff a b, span_id_compare_eq_zero_iff a b, ?_, ?_, ?_, ?_, ?_⟩
  · rw [span_id_compare_eq_zero_iff]
    obtain ⟨ah, al⟩ := a
    obtain ⟨bh, bl⟩ := b
    simp [htrace_span_id.mk.injEq]
  · rw [span_id_compare_neg_iff, span_id_compare_pos_iff]
  · rw [span_id_compare_neg_iff, span_id_compare_neg_iff, span_id_compare_neg_iff]
    omega
  · simp [SpanId.ltOp]
  · rw [span_id_compare_eq_zero_iff]
    obtain ⟨ah, al⟩ := a
    obtain ⟨bh, bl⟩ := b
    simp [SpanId.eqOp, htrace_span_id.mk.injEq]

/-- Witness for C4 at the concrete triple (0,1), (0,2), (1,0). -/
theorem C4_compare_strict_total_order_witness :
    (htrace_span_id_compare ⟨0, 1⟩ ⟨0, 2⟩ < 0 ↔
      ((0 : Nat) < 0 ∨ ((0 : Nat) = 0 ∧ (1 : Nat) < 2))) ∧
    (htrace_span_id_compare ⟨0, 1⟩ ⟨0, 2⟩ = 0 ↔
      (⟨0, 1⟩ : htrace_span_id) = ⟨0, 2⟩) ∧
    (htrace_span_id_compare ⟨0, 1⟩ ⟨0, 2⟩ = 0 ↔ ((0 : Nat) = 0 ∧ (1 : Nat) = 2)) ∧
    (htrace_span_id_compare ⟨0, 1⟩ ⟨0, 2⟩ < 0 ↔
      0 < htrace_span_id_compare ⟨0, 2⟩ ⟨0, 1⟩) ∧
    (htrace_span_id_compare ⟨0, 1⟩ ⟨0, 2⟩ < 0 →
      htrace_span_id_compare ⟨0, 2⟩ ⟨1, 0⟩ < 0 →
      htrace_span_id_compare ⟨0, 1⟩ ⟨1, 0⟩ < 0) ∧
    (SpanId.ltOp ⟨0, 1⟩ ⟨0, 2⟩ = true ↔ htrace_span_id_compare ⟨0, 1⟩ ⟨0, 2⟩ < 0) ∧
    (SpanId.eqOp ⟨0, 1⟩ ⟨0, 2⟩ = true ↔ htrace_span_id_compare ⟨0, 1⟩ ⟨0, 2⟩ = 0) :=
  C4_compare_strict_total_order ⟨0, 1⟩ ⟨0, 2⟩ ⟨1, 0⟩

/- Ring-buffer accounting. -/

theorem receiver_submit_all_counts (cap : Nat) (sps : List htrace_span) :
    ∀ st : ReceiverState, st.buf.length ≤ cap →
      (receiver_submit_all cap st sps).buf.length =
        min cap (st.buf.length + sps.length) ∧
      (receiver_submit_all cap st sps).dropped =
        st.dropped + (st.buf.length + sps.length - cap) := by
  induction sps with
  | nil =>
      intro st h
      simp only [receiver_submit_all, List.foldl_nil, List.length_nil]
      omega
  | cons sp rest ih =>
      intro st h
      simp only [receiver_submit_all, List.foldl_cons, List.length_cons] at *
      by_cases hlt : st.buf.length < cap
      · have hr := ih { buf := st.buf ++ [sp], dropped := st.dropped }
          (by simp only [List.length_append, List.length_cons, List.length_nil]; omega)
        simp only [receiver_submit, hlt, if_true, List.length_append,
          List.length_cons, List.length_nil] at hr
        simp only [receiver_submit, hlt, if_true]
        omega
      · have hr := ih { buf := st.buf, dropped := st.dropped + 1 } (by simpa using h)
        simp only [receiver_submit, hlt, if_false]
        simp only at hr
        omega

/-- C2: submitting `cap + k` spans into an empty Running ring buffer of
capacity `cap` with the background worker paused retains exactly `cap` spans
and records exactly `k` drops; `receiver_submit` has no error channel back to
the caller (its result type is the new state alone). -/
theorem C2_buffer_overflow_accounting (cap k : Nat) (sps : List htrace_span)
    (h : sps.length = cap + k) :
    (receiver_submit_all cap { buf := [], dropped := 0 } sps).buf.length = cap ∧
    (receiver_submit_all cap { buf := [], dropped := 0 } sps).dropped = k := by
  have hr := receiver_submit_all_counts cap sps { buf := [], dropped := 0 }
    (by simp)
  simp only [List.length_nil, Nat.zero_add, h] at hr
  omega

/-- A concrete span used by witnesses. -/
def sampleSpan : htrace_span :=
  { span_id := { high := 1, low := 2 }, parents := [], desc := "work" }

/-- Witness for C2 at capacity 2 and overflow 1. -/
theorem C2_buffer_overflow_accounting_witness :
    (List.replicate 3 sampleSpan).length = 2 + 1 ∧
    ((receiver_submit_all 2 { buf := [], dropped := 0 }
        (List.replicate 3 sampleSpan)).buf.length = 2 ∧
     (receiver_submit_all 2 { buf := [], dropped := 0 }
        (List.replicate 3 sampleSpan)).dropped = 1) :=
  ⟨by simp, C2_buffer_overflow_accounting 2 1 (List.replicate 3 sampleSpan) (by simp)⟩

/-- C3: whenever a span is active on the thread, `htrace_start_span` — with
any sampler or none — starts a new span whose parent-identity set is exactly
the active span identity, regardless of the sampler decision. -/
theorem C3_active_span_forces_child (ts : ThreadState)
    (sampler : Option SamplerKind) (newId : htrace_span_id) (desc : String)
    (cur : htrace_span) (h : ts.cur = some cur) :
    (htrace_start_span ts sampler newId desc).1.span =
      some { span_id := newId, parents := [cur.span_id], desc := desc } := by
  unfold htrace_start_span
  rw [h]

/-- Witness for C3: a Never sampler that answers false still produces a child
of the active span. -/
theorem C3_active_span_forces_child_witness :
    ({ cur := some sampleSpan } : ThreadState).cur = some sampleSpan ∧
    (htrace_start_span { cur := some sampleSpan } (some .never) ⟨5, 6⟩ "child").1.span =
      some { span_id := ⟨5, 6⟩, parents := [sampleSpan.span_id], desc := "child" } :=
  ⟨rfl, C3_active_span_forces_child { cur := some sampleSpan } (some .never)
    ⟨5, 6⟩ "child" sampleSpan rfl⟩

/-- C6: `htrace_start_span_from_parent` with an absent or invalid parent
returns a scope owning no span, and closing that scope only restores the
thread state (no span is emitted); with any other parent it unconditionally
starts a span whose parent set is exactly that identity — no sampler argument
even exists. -/
theorem C6_start_from_parent_cases (ts : ThreadState)
    (parent : Option htrace_span_id) (p newId : htrace_span_id)
    (desc : String) :
    ((parent = none ∨ parent = some INVALID_SPAN_ID) →
      ((htrace_start_span_from_parent ts parent newId desc).1.span = none ∧
       htrace_scope_close
         (some (htrace_start_span_from_parent ts parent newId desc).1)
         (htrace_start_span_from_parent ts parent newId desc).2 = (ts, none))) ∧
    (parent = some p → p ≠ INVALID_SPAN_ID →
      (htrace_start_span_from_parent ts parent newId desc).1.span =
        some { span_id := newId, parents := [p], desc := desc }) := by
  constructor
  · rintro (rfl | rfl)
    · simp [htrace_start_span_from_parent, htrace_scope_close]
    · simp [htrace_start_span_from_parent, htrace_scope_close]
  · rintro rfl hp
    simp [htrace_start_span_from_parent, hp]

/-- Witness for C6 at the invalid-sentinel parent. -/
theorem C6_start_from_parent_cases_witness :
    ((some INVALID_SPAN_ID = none ∨
        some INVALID_SPAN_ID = some INVALID_SPAN_ID) →
      ((htrace_start_span_from_parent { cur := none } (some INVALID_SPAN_ID)
          ⟨5, 6⟩ "rpc").1.span = none ∧
       htrace_scope_close
         (some (htrace_start_span_from_parent { cur := none }
            (some INVALID_SPAN_ID) ⟨5, 6⟩ "rpc").1)
         (htrace_start_span_from_parent { cur := none }
            (some INVALID_SPAN_ID) ⟨5, 6⟩ "rpc").2 = ({ cur := none }, none))) ∧
    (some INVALID_SPAN_ID = some ⟨9, 9⟩ → (⟨9, 9⟩ : htrace_span_id) ≠ INVALID_SPAN_ID →
      (htrace_start_span_from_parent { cur := none } (some INVALID_SPAN_ID)
          ⟨5, 6⟩ "rpc").1.span =
        some { span_id := ⟨5, 6⟩, parents := [⟨9, 9⟩], desc := "rpc" }) :=
  C6_start_from_parent_cases { cur := none } (some INVALID_SPAN_ID) ⟨9, 9⟩ ⟨5, 6⟩ "rpc"

/-- Whether a scope pointer refers to a scope owning a span. -/
def scope_owns_span (scope : Option htrace_scope) : Bool :=
  match scope with
  | none => false
  | some sc => sc.span.isSome

/-- C8: `htrace_scope_get_span_id` on a NULL scope or a scope owning no span
yields the invalid all-zero sentinel, so `Scope::GetSpanId` on an untraced
scope equals the default-constructed `SpanId`. -/
theorem C8_no_span_gives_invalid_id (scope : Option htrace_scope)
    (h : scope_owns_span scope = false) :
    htrace_scope_get_span_id scope = INVALID_SPAN_ID ∧
    Scope.GetSpanId scope = SpanId.defaultCtor := by
  match scope with
  | none => exact ⟨rfl, rfl⟩
  | some sc =>
      cases hsp : sc.span with
      | none =>
          simp [htrace_scope_get_span_id, Scope.GetSpanId, hsp,
            INVALID_SPAN_ID, SpanId.defaultCtor]
      | some sp => simp [scope_owns_span, hsp] at h

/-- Witness for C8 at a non-null scope owning no span. -/
theorem C8_no_span_gives_invalid_id_witness :
    scope_owns_span (some { span := none, prev := some sampleSpan }) = false ∧
    (htrace_scope_get_span_id (some { span := none, prev := some sampleSpan }) =
       INVALID_SPAN_ID ∧
     Scope.GetSpanId (some { span := none, prev := some sampleSpan }) =
       SpanId.defaultCtor) :=
  ⟨rfl, C8_no_span_gives_invalid_id (some { span := none, prev := some sampleSpan }) rfl⟩

/-- C7 fails on the code: the C++ `Sampler` constructor throws
`std::bad_alloc` whenever `htrace_sampler_create` returns NULL, and the
header contract makes it return NULL for an invalid configuration — so
constructing a Sampler from an invalid configuration does throw. -/
theorem C7_counterexample :
    Sampler.ctor SamplerCreateInput.invalidConf =
      Except.error CppException.badAlloc := rfl

/-- C7 (amended): a configuration error never escalates out of the C core —
`htrace_sampler_create` returns NULL (logged) for invalid configuration, for
no-sampler-configured, and for OOM — and `std::bad_alloc` is the only
exception the C++ binding raises; but the C++ `Sampler` constructor throws it
exactly when the create call returns NULL, which includes invalid
configuration, not only OOM. -/
theorem C7_sampler_ctor_throws_on_null (input : SamplerCreateInput)
    (k : SamplerKind) :
    (Sampler.ctor input = .error .badAlloc ↔ htrace_sampler_create input = none) ∧
    (Sampler.ctor input = .ok k ↔ htrace_sampler_create input = some k) ∧
    htrace_sampler_create .invalidConf = none ∧
    htrace_sampler_create .noSamplerConf = none ∧
    htrace_sampler_create .outOfMemory = none := by
  cases input <;> simp [Sampler.ctor, htrace_sampler_create]

/-- Witness for C7 (amended) at a valid Never-sampler configuration. -/
theorem C7_sampler_ctor_throws_on_null_witness :
    (Sampler.ctor (.validConf .never) = .error .badAlloc ↔
      htrace_sampler_create (.validConf .never) = none) ∧
    (Sampler.ctor (.validConf .never) = .ok .never ↔
      htrace_sampler_create (.validConf .never) = some .never) ∧
    htrace_sampler_create .invalidConf = none ∧
    htrace_sampler_create .noSamplerConf = none ∧
    htrace_sampler_create .outOfMemory = none :=
  C7_sampler_ctor_throws_on_null (.validConf .never) .never

/-- C10: for every duration and every outcome of the underlying `nanosleep`
call, `sleep_ms` invokes `nanosleep` exactly once: the EINTR branch sets
`rem := req` and its `continue` re-evaluates the do-while(0) condition, which
is false, so the body never runs a second time and an interrupted sleep is
not resumed. -/
theorem C10_nanosleep_called_once (ms : Nat) (o : NanosleepOutcome)
    (rest : List NanosleepOutcome) :
    (sleep_ms ms o rest).calls = 1 ∧
    (o = .eintr → (sleep_ms ms o rest).rem = ms_to_timespec ms) := by
  unfold sleep_ms sleep_loop sleep_body
  cases o <;> simp

/-- Witness for C10 at a 7 ms interrupted sleep. -/
theorem C10_nanosleep_called_once_witness :
    (sleep_ms 7 .eintr []).calls = 1 ∧
    (NanosleepOutcome.eintr = .eintr →
      (sleep_ms 7 .eintr []).rem = ms_to_timespec 7) :=
  C10_nanosleep_called_once 7 .eintr []

/- Signed/unsigned 64-bit conversion lemmas for the time embeddings. -/

theorem toInt64_small (n : Nat) (h : n < 2 ^ 63) : toInt64 n = (n : Int) := by
  unfold toInt64 U64
  rw [Nat.mod_eq_of_lt (by omega), if_pos h]

theorem toU64_ofNat (n : Nat) (h : n < 2 ^ 64) : toU64 ((n : Nat) : Int) = n := by
  unfold toU64 U64
  omega

/-- C9: for every 64-bit millisecond value whose quotient by 1000 fits the
signed `tv_sec` field, `timespec_to_ms (ms_to_timespec ms) = ms`, and
`ms_to_timeval` sets `tv_sec = ms / 1000` and `tv_usec = (ms mod 1000) * 1000`. -/
theorem C9_ms_round_trip (ms : Nat) (h64 : ms < U64)
    (hrep : ms / 1000 < 2 ^ 63) :
    timespec_to_ms (ms_to_timespec ms) = ms ∧
    (ms_to_timeval ms).tv_sec = ((ms / 1000 : Nat) : Int) ∧
    (ms_to_timeval ms).tv_usec = ((ms % 1000 * 1000 : Nat) : Int) := by
  have hU : ms % U64 = ms := Nat.mod_eq_of_lt h64
  have hms1 : ms - ms / 1000 * 1000 = ms % 1000 := by omega
  have hlo : ms % 1000 < 1000 := Nat.mod_lt _ (by omega)
  unfold ms_to_timespec timespec_to_ms ms_to_timeval
  simp only [hU, hms1]
  rw [toInt64_small _ hrep, toInt64_small (ms % 1000 * 1000000) (by omega),
    toInt64_small (ms % 1000 * 1000) (by omega),
    toU64_ofNat _ (by unfold U64 at h64; omega),
    toU64_ofNat (ms % 1000 * 1000000) (by omega)]
  refine ⟨?_, rfl, rfl⟩
  unfold U64 at h64 ⊢
  omega

/-- Witness for C9 at 123456 ms. -/
theorem C9_ms_round_trip_witness :
    ((123456 : Nat) < U64 ∧ (123456 : Nat) / 1000 < 2 ^ 63) ∧
    (timespec_to_ms (ms_to_timespec 123456) = 123456 ∧
     (ms_to_timeval 123456).tv_sec = ((123456 / 1000 : Nat) : Int) ∧
     (ms_to_timeval 123456).tv_usec = ((123456 % 1000 * 1000 : Nat) : Int)) :=
  ⟨⟨by norm_num [U64], by norm_num⟩,
   C9_ms_round_trip 123456 (by norm_num [U64]) (by norm_num)⟩

/- Hexadecimal digit lemmas. -/

theorem hexCharVal_of_isLowerHex (c : Char) (h : isLowerHex c = true) :
    (hexCharVal c).isNone = false ∧ (hexCharVal c).getD 0 < 16 ∧
    hexDigitChar ((hexCharVal c).getD 0) = c := by
  unfold isLowerHex at h
  simp only [Bool.or_eq_true, Bool.and_eq_true, decide_eq_true_eq] at h
  simp only [hexCharVal, hexDigitChar]
  rcases h with ⟨h1, h2⟩ | ⟨h1, h2⟩
  · rw [if_pos ⟨h1, h2⟩]
    refine ⟨rfl, by simp only [Option.getD_some]; omega, ?_⟩
    simp only [Option.getD_some]
    rw [if_pos (by omega)]
    have he : 48 + (c.toNat - 48) = c.toNat := by omega
    rw [he, Char.ofNat_toNat]
  · rw [if_neg (by omega), if_pos ⟨h1, h2⟩]
    refine ⟨rfl, by simp only [Option.getD_some]; omega, ?_⟩
    simp only [Option.getD_some]
    rw [if_neg (by omega)]
    have he : 87 + (c.toNat - 87) = c.toNat := by omega
    rw [he, Char.ofNat_toNat]

/-- Formatting inverts scanning on all-lowercase hexadecimal digit strings. -/
theorem toHexN_hexValFold (ds : List Char) (h : ds.all isLowerHex = true) :
    toHexN ds.length (hexValFold ds) = ds := by
  induction ds using List.reverseRecOn with
  | nil => rfl
  | append_singleton es c ih =>
      rw [List.all_append] at h
      simp only [List.all_cons, List.all_nil, Bool.and_true, Bool.and_eq_true] at h
      obtain ⟨hes, hc⟩ := h
      obtain ⟨-, hlt, hchar⟩ := hexCharVal_of_isLowerHex c hc
      have hval : hexValFold (es ++ [c]) =
          hexValFold es * 16 + (hexCharVal c).getD 0 := by
        unfold hexValFold
        rw [List.foldl_append]
        rfl
      rw [List.length_append, List.length_cons, List.length_nil, hval]
      show toHexN es.length
          ((hexValFold es * 16 + (hexCharVal c).getD 0) / 16) ++
        [hexDigitChar ((hexValFold es * 16 + (hexCharVal c).getD 0) % 16)] =
          es ++ [c]
      have hdiv : (hexValFold es * 16 + (hexCharVal c).getD 0) / 16 =
          hexValFold es := by omega
      have hmod : (hexValFold es * 16 + (hexCharVal c).getD 0) % 16 =
          (hexCharVal c).getD 0 := by omega
      rw [hdiv, hmod, hchar, ih hes]

/-- The concrete counterexample input: 31 zeros followed by an uppercase A —
32 valid hexadecimal characters that the formatter can never reproduce. -/
def C1cexInput : List Char := List.replicate 31 '0' ++ ['A']

/-- C1 fails on the code as stated: the input below consists of 32 valid
hexadecimal characters, parses successfully, but formats back with a
lowercase final digit, so format(parse(s)) differs from s. -/
theorem C1_counterexample :
    C1cexInput.length = 32 ∧
    C1cexInput.all (fun c => (hexCharVal c).isSome) = true ∧
    htrace_span_id_to_str (htrace_span_id_parse { high := 0, low := 0 } C1cexInput).1 33 ≠
      some C1cexInput := by decide

/-- C1 (amended): for every string of exactly 32 LOWERCASE hexadecimal
characters — the canonical span-id form — parsing with
`htrace_span_id_parse` and formatting the result with
`htrace_span_id_to_str` into a buffer of at least 33 bytes yields the input
string again. -/
theorem C1_lower_hex_round_trip (id : htrace_span_id) (s : List Char)
    (len : Nat) (h1 : s.length = 32) (h2 : s.all isLowerHex = true)
    (hlen : 33 ≤ len) :
    htrace_span_id_to_str (htrace_span_id_parse id s).1 len = some s := by
  have htake : (s.take 16).length = 16 := by rw [List.length_take]; omega
  have hdrop : (s.drop 16).length = 16 := by rw [List.length_drop]; omega
  have htakeall : (s.take 16).all isLowerHex = true := by
    rw [List.all_eq_true] at h2 ⊢
    intro c hc
    exact h2 c (List.take_subset 16 s hc)
  have hdropall : (s.drop 16).all isLowerHex = true := by
    rw [List.all_eq_true] at h2 ⊢
    intro c hc
    exact h2 c (List.drop_subset 16 s hc)
  have hnone : s.any (fun c => (hexCharVal c).isNone) = false := by
    rw [List.any_eq_false]
    intro c hc
    have h3 := (hexCharVal_of_isLowerHex c (List.all_eq_true.mp h2 c hc)).1
    simp [h3]
  unfold htrace_span_id_parse
  rw [if_neg (by omega), if_neg (by simp [hnone])]
  unfold htrace_span_id_to_str
  rw [if_pos hlen]
  have t1 := toHexN_hexValFold (s.take 16) htakeall
  rw [htake] at t1
  have t2 := toHexN_hexValFold (s.drop 16) hdropall
  rw [hdrop] at t2
  show some (toHexN 16 (hexValFold (s.take 16)) ++
    toHexN 16 (hexValFold (s.drop 16))) = some s
  rw [t1, t2, List.take_append_drop]

/-- Witness for C1 (amended) at a concrete canonical 32-character string. -/
theorem C1_lower_hex_round_trip_witness :
    (("0123456789abcdef0123456789abcdef".toList.length = 32 ∧
      "0123456789abcdef0123456789abcdef".toList.all isLowerHex = true) ∧
     33 ≤ 33) ∧
    htrace_span_id_to_str
      (htrace_span_id_parse { high := 7, low := 8 }
        "0123456789abcdef0123456789abcdef".toList).1 33 =
      some "0123456789abcdef0123456789abcdef".toList :=
  ⟨⟨⟨by decide, by decide⟩, by decide⟩,
   C1_lower_hex_round_trip { high := 7, low := 8 }
     "0123456789abcdef0123456789abcdef".toList 33
     (by decide) (by decide) (by decide)⟩

/-- C5: `htrace_span_id_parse` rejects every string whose length is not 32 or
that contains a non-hexadecimal character: the error buffer receives a
non-empty descriptive message and the output identifier is left unmodified;
hence `SpanId::FromString` returns a non-empty error string with the wrapped
fields unchanged. -/
theorem C5_parse_rejects_invalid (id : htrace_span_id) (s : List Char)
    (h : s.length ≠ 32 ∨ s.any (fun c => (hexCharVal c).isNone) = true) :
    (htrace_span_id_parse id s).1 = id ∧
    (htrace_span_id_parse id s).2 ≠ "" ∧
    (SpanId.FromString id s).1 = id ∧
    (SpanId.FromString id s).2 ≠ "" := by
  unfold SpanId.FromString
  unfold htrace_span_id_parse
  split_ifs with hl ha
  · exact ⟨rfl, by simp, rfl, by simp⟩
  · exact ⟨rfl, by simp, rfl, by simp⟩
  · rcases h with h | h
    · exact absurd h hl
    · exact absurd h (by simp_all)

/-- Witness for C5 at the one-character input "x". -/
theorem C5_parse_rejects_invalid_witness :
    ((['x'] : List Char).length ≠ 32 ∨
      (['x'] : List Char).any (fun c => (hexCharVal c).isNone) = true) ∧
    ((htrace_span_id_parse { high := 7, low := 8 } ['x']).1 = { high := 7, low := 8 } ∧
     (htrace_span_id_parse { high := 7, low := 8 } ['x']).2 ≠ "" ∧
     (SpanId.FromString { high := 7, low := 8 } ['x']).1 = { high := 7, low := 8 } ∧
     (SpanId.FromString { high := 7, low := 8 } ['x']).2 ≠ "") :=
  ⟨Or.inl (by decide),
   C5_parse_rejects_invalid { high := 7, low := 8 } ['x'] (Or.inl (by decide))⟩

end HTraceC
